import Mathlib

/-!
Shallow embedding of the core of the `runable` context-compacting coding
agent: the conversation memory manager (SQLite-backed message ledger,
token budget tracking, threshold-triggered compaction) and the Docker
sandbox lifecycle manager, together with theorems checking the
specification's claims about them.

Sources embedded:
- `src/agent/compactor.ts` (compactConversation, buildCompactionPrompt,
  formatMessagesForCompaction),
- `src/agent/tokenCounter.ts` (shouldCompact),
- `src/agent/session.ts` (class Session: loadOrCreate, add*Message,
  updateTokenCount, checkAndCompact),
- `src/db/client.ts` (createSession, getSession, appendMessage,
  getAllMessages, setSummary, deleteMessagesBeforeId, getTotalTokenCount),
- `src/docker/manager.ts` (exec with crash recovery).

External collaborators (the LLM summarizer, the Docker daemon) are
modelled as oracle parameters; the SQLite store is modelled as an explicit
value threaded through the operations.
-/

namespace Runable

/-- Decidable equality for `Except`, needed to evaluate fallible
operations on concrete inputs. -/
instance {ε α : Type} [DecidableEq ε] [DecidableEq α] : DecidableEq (Except ε α) := fun a b =>
  match a, b with
  | .ok x, .ok y => if h : x = y then .isTrue (by simp [h]) else .isFalse (by simp [h])
  | .error x, .error y => if h : x = y then .isTrue (by simp [h]) else .isFalse (by simp [h])
  | .ok _, .error _ => .isFalse (by simp)
  | .error _, .ok _ => .isFalse (by simp)

/-! ## JavaScript string primitives

`String.prototype.trim`, `toUpperCase` and `includes` are modelled over
the character list so that every definition evaluates inside the kernel.
-/

/-- Model of JavaScript `String.prototype.trim`: drop whitespace from both
ends of the string. -/
def jsTrim (s : String) : String :=
  String.mk ((((s.data.dropWhile Char.isWhitespace).reverse).dropWhile Char.isWhitespace).reverse)

/-- Model of JavaScript `String.prototype.toUpperCase` (ASCII letters). -/
def jsToUpper (s : String) : String :=
  String.mk (s.data.map Char.toUpper)

/-- Whether `p` occurs at the head of `l` (pattern first argument). -/
def headMatches : List Char → List Char → Bool
  | [], _ => true
  | _ :: _, [] => false
  | c :: p, d :: l => c == d && headMatches p l

/-- Whether the pattern `p` occurs anywhere in `l`. -/
def hasSubChars (p : List Char) : List Char → Bool
  | [] => headMatches p []
  | c :: t => headMatches p (c :: t) || hasSubChars p t

/-- Model of JavaScript `String.prototype.includes`. -/
def strIncludes (s pat : String) : Bool :=
  hasSubChars pat.data s.data

/-! ## Configuration (`src/config/env.ts`)

Only the values the memory subsystem reads.  `compactAtTokens` is stored
precomputed, exactly as `config.compactAtTokens` is in `env.ts`. -/

/-- Configuration values consumed by the compaction pipeline. -/
structure Config where
  compactAtTokens : Nat
  keepRecentMessages : Nat
  maxSummaryLength : Nat
deriving DecidableEq

/-! ## Compaction engine (`src/agent/compactor.ts`) -/

/-- Token usage triple returned by the model gateway. -/
structure Usage where
  inputTokens : Nat
  outputTokens : Nat
  totalTokens : Nat
deriving DecidableEq

/-- One part of a multi-part `ModelMessage` content value. -/
inductive ContentPart where
  | text (t : String)
  | toolCall (toolName : String)
  | toolResult (toolName : String)
  | image
  | file
  | other (ptype : String)
deriving DecidableEq

/-- Content of a `ModelMessage`: a plain string or a list of parts. -/
inductive MsgContent where
  | str (s : String)
  | parts (ps : List ContentPart)
deriving DecidableEq

/-- A message as handed to the AI SDK (`ModelMessage`). -/
structure ModelMessage where
  role : String
  content : MsgContent
deriving DecidableEq

/-- Input of `compactConversation`. -/
structure CompactionInput where
  existingSummary : Option String
  messages : List ModelMessage
deriving DecidableEq

/-- Output of `compactConversation`. -/
structure CompactionResult where
  newSummary : String
  keepMessagesFromIndex : Nat
  compactedMessageCount : Nat
  usage : Usage
deriving DecidableEq

/-- Rendering of one content part inside `formatMessagesForCompaction`:
non-text variants render as short bracketed placeholders. -/
def renderPart : ContentPart → String
  | .text t => t
  | .toolCall toolName => "[Tool Call: " ++ toolName ++ "(...)]"
  | .toolResult toolName => "[Tool Result from " ++ toolName ++ "]"
  | .image => "[Image]"
  | .file => "[File]"
  | .other ptype => "[" ++ ptype ++ "]"

/-- Rendering of a message's content: strings as-is, parts joined by
newlines. -/
def renderContent : MsgContent → String
  | .str s => s
  | .parts ps => String.intercalate "\n" (ps.map renderPart)

/-- One line of `formatMessagesForCompaction`: index, upper-cased role and
content, the content capped at 2000 characters with a truncation marker. -/
def formatOneMessage (index : Nat) (msg : ModelMessage) : String :=
  let content := renderContent msg.content
  let content :=
    if 2000 < content.length then content.take 2000 ++ "...[truncated]" else content
  "[" ++ toString (index + 1) ++ "] " ++ jsToUpper msg.role ++ ": " ++ content

/-- `formatMessagesForCompaction` from `compactor.ts`. -/
def formatMessagesForCompaction (messages : List ModelMessage) : String :=
  String.intercalate "\n\n" (messages.mapIdx formatOneMessage)

/-- JavaScript truthiness test `existingSummary && existingSummary.trim().length > 0`
from `buildCompactionPrompt`. -/
def hasExistingSummary : Option String → Bool
  | some s => decide (0 < (jsTrim s).length)
  | none => false

/-- The fixed tail of the compaction prompt (the `## Task` template). -/
def taskBlock (hasExisting : Bool) : String :=
  "\n\n## Task\n\nCreate a NEW summary that "
    ++ (if hasExisting then "MERGES the existing summary with the new messages"
        else "summarizes all the messages")
    ++ ". Use this EXACT structure:\n\n# Goal\n[What is the user trying to achieve? What is the main objective or task?]\n\n# Current Plan\n[What steps or approach have been planned or are being followed?]\n\n# Key Decisions\n[Important choices made, approaches selected, rejected alternatives]\n\n# Facts / Constraints\n[Technical details, requirements, limitations, environment info]\n\n# Tool Results\n[Important outputs from tool calls, file operations, command results]\n\n# Open Questions\n[Unresolved issues, pending decisions, things that need clarification]\n\n---\n\nIMPORTANT RULES:\n1. Keep it concise but preserve critical information\n2. Focus on technical facts, not conversational fluff\n3. "
    ++ (if hasExisting then "MERGE information from existing summary with new messages - do not duplicate"
        else "Extract key information from messages")
    ++ "\n4. If a section is empty or not applicable, write \"None\" or \"N/A\"\n5. Use bullet points for readability\n6. Maximum length: keep the summary under 2000 words\n\nGenerate the summary now:"

/-- `buildCompactionPrompt` from `compactor.ts`: intro sentence, optional
existing-summary block, serialized messages, fixed task template. -/
def buildCompactionPrompt (existingSummary : Option String) (messages : List ModelMessage) : String :=
  "You are compacting a conversation history to save context space. "
    ++ (if hasExistingSummary existingSummary then
          "There is an existing summary from previous compactions, and new messages that need to be merged into it.\n\n"
            ++ "## Existing Summary\n\n" ++ existingSummary.getD "" ++ "\n\n"
        else
          "This is the first compaction.\n\n")
    ++ ("## Messages to Compact\n\n" ++ formatMessagesForCompaction messages)
    ++ taskBlock (hasExistingSummary existingSummary)

/-- The marker appended when a generated summary is hard-truncated. -/
def truncationMarker : String := "\n\n[Summary truncated due to length]"

/-- `compactConversation` from `compactor.ts`.  The external
`generateText` call is the oracle `gen`, mapping the prompt to either a
failure or the generated text plus usage.  With at most
`keepRecentMessages` messages it is a no-op; otherwise the messages
before `length - keepRecentMessages` are folded through the oracle and
the trimmed result is capped at `maxSummaryLength` characters. -/
def compactConversation (cfg : Config) (gen : String → Except String (String × Usage))
    (input : CompactionInput) : Except String CompactionResult :=
  if input.messages.length ≤ cfg.keepRecentMessages then
    .ok { newSummary := input.existingSummary.getD ""
          keepMessagesFromIndex := 0
          compactedMessageCount := 0
          usage := ⟨0, 0, 0⟩ }
  else
    match gen (buildCompactionPrompt input.existingSummary
        (input.messages.take (input.messages.length - cfg.keepRecentMessages))) with
    | .error e => .error e
    | .ok (text, usage) =>
      .ok { newSummary :=
              if cfg.maxSummaryLength < (jsTrim text).length then
                (jsTrim text).take cfg.maxSummaryLength ++ truncationMarker
              else jsTrim text
            keepMessagesFromIndex := input.messages.length - cfg.keepRecentMessages
            compactedMessageCount :=
              (input.messages.take (input.messages.length - cfg.keepRecentMessages)).length
            usage := usage }

/-! ## Token counter (`src/agent/tokenCounter.ts`) -/

/-- `shouldCompact`: compaction triggers once the running total reaches
the configured threshold. -/
def shouldCompact (currentTokenCount compactAtTokens : Nat) : Bool :=
  decide (compactAtTokens ≤ currentTokenCount)

/-! ## Durable store (`src/db/schema.ts`, `src/db/client.ts`)

Rows of the `sessions` and `messages` tables (`metadata_json` is never
read by this core and is omitted).  The store is a value: `messages` in
insertion order, which coincides with `ORDER BY created_at` because
`created_at` is taken from a monotone clock, and with id order because
ids come from the AUTOINCREMENT counter `nextMessageId`. -/

/-- A row of the `sessions` table. -/
structure SessionRow where
  id : String
  created_at : Nat
  updated_at : Nat
  summary_text : Option String
  last_compacted_at : Option Nat
deriving DecidableEq

/-- A row of the `messages` table. -/
structure Message where
  id : Nat
  session_id : String
  role : String
  content : String
  created_at : Nat
  token_count : Option Nat
deriving DecidableEq

/-- The SQLite store. -/
structure DB where
  sessions : List SessionRow
  messages : List Message
  nextMessageId : Nat
deriving DecidableEq

/-- `createSession` from `client.ts` (the random UUID is passed in). -/
def createSession (db : DB) (id : String) (now : Nat) : SessionRow × DB :=
  let row : SessionRow :=
    { id := id, created_at := now, updated_at := now
      summary_text := none, last_compacted_at := none }
  (row, { db with sessions := db.sessions ++ [row] })

/-- `getSession` from `client.ts`. -/
def getSession (db : DB) (sessionId : String) : Option SessionRow :=
  db.sessions.find? (fun r => r.id == sessionId)

/-- `appendMessage` from `client.ts`: insert with the next id and update
the session's `updated_at`. -/
def appendMessage (db : DB) (sessionId role content : String)
    (tokenCount : Option Nat) (now : Nat) : Message × DB :=
  let msg : Message :=
    { id := db.nextMessageId, session_id := sessionId, role := role
      content := content, created_at := now, token_count := tokenCount }
  let sessions := db.sessions.map (fun r => if r.id = sessionId then { r with updated_at := now } else r)
  (msg, { sessions := sessions, messages := db.messages ++ [msg]
          nextMessageId := db.nextMessageId + 1 })

/-- `getAllMessages` from `client.ts`: the session's messages ordered by
`created_at`, i.e. in insertion order. -/
def getAllMessages (db : DB) (sessionId : String) : List Message :=
  db.messages.filter (fun m => m.session_id == sessionId)

/-- `setSummary` from `client.ts`: store the new summary and stamp
`last_compacted_at` and `updated_at`. -/
def setSummary (db : DB) (sessionId summaryText : String) (now : Nat) : DB :=
  { db with sessions := db.sessions.map (fun r =>
      if r.id = sessionId then
        { r with summary_text := some summaryText, last_compacted_at := some now, updated_at := now }
      else r) }

/-- `deleteMessagesBeforeId` from `client.ts`: delete the session's
messages with id strictly below the cutoff, returning the change count. -/
def deleteMessagesBeforeId (db : DB) (sessionId : String) (beforeMessageId : Nat) : Nat × DB :=
  let kept := db.messages.filter (fun m => !(m.session_id == sessionId && decide (m.id < beforeMessageId)))
  (db.messages.length - kept.length, { db with messages := kept })

/-- `getTotalTokenCount` from `client.ts`:
`COALESCE(SUM(token_count), 0)` over the session's messages; NULL counts
contribute zero. -/
def getTotalTokenCount (db : DB) (sessionId : String) : Nat :=
  ((db.messages.filter (fun m => m.session_id == sessionId)).map (fun m => m.token_count.getD 0)).sum

/-! ## Session orchestrator (`src/agent/session.ts`)

The in-memory state of `class Session` is the triple of private fields
`sessionId`, `summary`, `totalTokens`; every method becomes a function
threading this state and the store. -/

/-- In-memory state of `class Session`. -/
structure Session where
  sessionId : String
  summary : Option String
  totalTokens : Nat
deriving DecidableEq

/-- `Session.loadOrCreate`: hydrate an existing session (summary from the
row, token total recomputed from the persisted messages) or create a
fresh one (the fresh UUID is passed in). -/
def Session.loadOrCreate (db : DB) (sessionId : Option String) (freshId : String) (now : Nat) :
    Session × DB :=
  match sessionId with
  | some sid =>
    match getSession db sid with
    | some existing =>
      ({ sessionId := sid, summary := existing.summary_text
         totalTokens := getTotalTokenCount db sid }, db)
    | none =>
      let (row, db1) := createSession db freshId now
      ({ sessionId := row.id, summary := none, totalTokens := 0 }, db1)
  | none =>
    let (row, db1) := createSession db freshId now
    ({ sessionId := row.id, summary := none, totalTokens := 0 }, db1)

/-- Common body of `addUserMessage` / `addAssistantMessage` /
`addSystemMessage`: append to the ledger and accumulate the
caller-supplied token count into the in-memory total. -/
def Session.addMessageWithRole (s : Session) (db : DB) (role content : String)
    (tokenCount : Option Nat) (now : Nat) : Session × DB :=
  let (_, db1) := appendMessage db s.sessionId role content tokenCount now
  ({ s with totalTokens := s.totalTokens + tokenCount.getD 0 }, db1)

/-- `Session.addUserMessage`. -/
def Session.addUserMessage (s : Session) (db : DB) (content : String)
    (tokenCount : Option Nat) (now : Nat) : Session × DB :=
  Session.addMessageWithRole s db "user" content tokenCount now

/-- `Session.addAssistantMessage`. -/
def Session.addAssistantMessage (s : Session) (db : DB) (content : String)
    (tokenCount : Option Nat) (now : Nat) : Session × DB :=
  Session.addMessageWithRole s db "assistant" content tokenCount now

/-- `Session.addSystemMessage`. -/
def Session.addSystemMessage (s : Session) (db : DB) (content : String)
    (tokenCount : Option Nat) (now : Nat) : Session × DB :=
  Session.addMessageWithRole s db "system" content tokenCount now

/-- `Session.updateTokenCount`: add a generation's input and output
tokens to the in-memory total (nothing is persisted). -/
def Session.updateTokenCount (s : Session) (inputTokens outputTokens : Nat) : Session :=
  { s with totalTokens := s.totalTokens + (inputTokens + outputTokens) }

/-- The pruning step of `Session.checkAndCompact`, the source's
"delete old messages" if/else block verbatim: `db1` is the store after
`setSummary`, `dbMessages` the history snapshot taken at the start of
the compaction, `keep` the split index returned by the compactor.
Pruning deletes strictly before the id of the message at the split
index; a split index at or past the end prunes everything using the
last message's id plus one. -/
def prunedStore (db1 : DB) (sid : String) (dbMessages : List Message) (keep : Nat) : DB :=
  if 0 < keep ∧ keep < dbMessages.length then
    match dbMessages[keep]? with
    | some firstMessageToKeep => (deleteMessagesBeforeId db1 sid firstMessageToKeep.id).2
    | none => db1
  else if dbMessages.length ≤ keep then
    match dbMessages.getLast? with
    | some lastMessage => (deleteMessagesBeforeId db1 sid (lastMessage.id + 1)).2
    | none => db1
  else db1

/-- `Session.checkAndCompact`: below the threshold return `false` and
leave everything alone; otherwise compact the full persisted history,
persist the new summary, prune the ledger (the `prunedStore` step), and
recompute the in-memory total as the summary estimate
(`ceil(length / 4)`) plus the persisted sum.  A failure of the
summarizer propagates as `Except.error` with the store as it was. -/
def Session.checkAndCompact (cfg : Config) (gen : String → Except String (String × Usage))
    (s : Session) (db : DB) (now : Nat) : Except String (Session × Bool) × DB :=
  if !(shouldCompact s.totalTokens cfg.compactAtTokens) then
    (.ok (s, false), db)
  else
    match compactConversation cfg gen
        { existingSummary := s.summary
          messages := (getAllMessages db s.sessionId).map
            (fun m => { role := m.role, content := .str m.content }) } with
    | .error e => (.error e, db)
    | .ok result =>
      let db2 := prunedStore (setSummary db s.sessionId result.newSummary now) s.sessionId
        (getAllMessages db s.sessionId) result.keepMessagesFromIndex
      (.ok ({ sessionId := s.sessionId, summary := some result.newSummary
              totalTokens := (result.newSummary.length + 3) / 4
                + getTotalTokenCount db2 s.sessionId }, true),
       db2)

/-! ## Sandbox lifecycle manager (`src/docker/manager.ts`)

The Docker daemon is modelled as a script: the list of outcomes the
successive attempts of the `try` block in `exec` would observe.  Each
recursive retry consumes the next entry and performs one container
recreation. -/

/-- Result of a completed command. -/
structure ExecResult where
  stdout : String
  stderr : String
  exitCode : Int
deriving DecidableEq

/-- An error thrown by dockerode: a message and an optional HTTP status. -/
structure DockerError where
  message : String
  statusCode : Option Nat
deriving DecidableEq

/-- The crash test in `exec`'s catch block:
`error.message?.includes("container") || error.statusCode === 404`. -/
def isContainerCrashError (e : DockerError) : Bool :=
  strIncludes e.message "container" || e.statusCode == some 404

/-- Outcome of one attempt of `exec`'s try block. -/
inductive AttemptOutcome where
  | ok (r : ExecResult)
  | err (e : DockerError)
deriving DecidableEq

/-- `exec` from `manager.ts` over a script of attempt outcomes.  On a
container-type error it recreates the container and calls itself
recursively on the rest of the script; the returned `Nat` counts the
`recreateContainer` calls performed.  Any other error propagates. -/
def exec : List AttemptOutcome → Except DockerError (ExecResult × Nat)
  | [] => .error { message := "no scripted attempt outcome", statusCode := none }
  | .ok r :: _ => .ok (r, 0)
  | .err e :: rest =>
    if isContainerCrashError e then
      match exec rest with
      | .ok (r, n) => .ok (r, n + 1)
      | .error e2 => .error e2
    else .error e

/-- Modelled from the spec: the claimed recovery discipline for `exec`
(recreate and retry the original command exactly once; a second failure
propagates to the caller with no further recreate-and-retry cycle),
written for comparison with `exec` itself. -/
def execClaimedOnce : List AttemptOutcome → Except DockerError (ExecResult × Nat)
  | [] => .error { message := "no scripted attempt outcome", statusCode := none }
  | .ok r :: _ => .ok (r, 0)
  | .err e :: rest =>
    if isContainerCrashError e then
      match rest with
      | [] => .error { message := "no scripted attempt outcome", statusCode := none }
      | .ok r :: _ => .ok (r, 1)
      | .err e2 :: _ => .error e2
    else .error e

/-! ## Concrete scenarios

Concrete runs of the model used to instantiate the theorems below.
Each block is an independent pipeline over a small store. -/

/-- Configuration for the round-trip scenario: threshold 10, keep 1. -/
def c2cfg : Config := ⟨10, 1, 100⟩

/-- Summarizer oracle for the round-trip scenario. -/
def c2gen : String → Except String (String × Usage) := fun _ => .ok ("SUMMARY", ⟨1, 1, 2⟩)

/-- Round-trip scenario: create a session. -/
def c2run1 : Session × DB := Session.loadOrCreate ⟨[], [], 1⟩ none "sess-1" 0

/-- Round-trip scenario: append a user turn worth 6 tokens. -/
def c2run2 : Session × DB := Session.addUserMessage c2run1.1 c2run1.2 "hello" (some 6) 1

/-- Round-trip scenario: append an assistant turn worth 6 tokens. -/
def c2run3 : Session × DB := Session.addAssistantMessage c2run2.1 c2run2.2 "world" (some 6) 2

/-- Round-trip scenario: run the threshold check and compaction. -/
def c2run4 : Except String (Session × Bool) × DB :=
  Session.checkAndCompact c2cfg c2gen c2run3.1 c2run3.2 3

/-- Round-trip scenario: reload the session by id. -/
def c2reload : Session × DB := Session.loadOrCreate c2run4.2 (some "sess-1") "unused" 4

/-- Token-accounting scenario: create a session. -/
def c3run1 : Session × DB := Session.loadOrCreate ⟨[], [], 1⟩ none "sess-3" 0

/-- Token-accounting scenario: append a user turn worth 10 tokens. -/
def c3run2 : Session × DB := Session.addUserMessage c3run1.1 c3run1.2 "hi" (some 10) 1

/-- Token-accounting scenario: record a generation's usage (5 in, 7 out). -/
def c3run3 : Session := Session.updateTokenCount c3run2.1 5 7

/-- Token-accounting scenario: compaction configuration and oracle. -/
def c3cfg : Config := ⟨10, 1, 100⟩

/-- Token-accounting scenario: summarizer oracle. -/
def c3gen : String → Except String (String × Usage) := fun _ => .ok ("NOTES", ⟨1, 1, 2⟩)

/-- Token-accounting scenario: a second turn, pushing the total to 22. -/
def c3run4 : Session × DB := Session.addAssistantMessage c3run2.1 c3run2.2 "yo" (some 12) 2

/-- Token-accounting scenario: compaction over the two turns. -/
def c3run5 : Except String (Session × Bool) × DB :=
  Session.checkAndCompact c3cfg c3gen c3run4.1 c3run4.2 3

/-- Split-count scenario: keep-count 2. -/
def c4cfg : Config := ⟨100, 2, 1000⟩

/-- Split-count scenario: summarizer oracle. -/
def c4gen : String → Except String (String × Usage) := fun _ => .ok ("ok", ⟨0, 0, 0⟩)

/-- Split-count scenario: five messages m1..m5. -/
def c4msgs : List ModelMessage :=
  [⟨"user", .str "m1"⟩, ⟨"assistant", .str "m2"⟩, ⟨"user", .str "m3"⟩,
   ⟨"assistant", .str "m4"⟩, ⟨"user", .str "m5"⟩]

/-- Failure scenario: a store holding one session with two turns. -/
def c5db : DB :=
  ⟨[⟨"s5", 0, 2, none, none⟩],
   [⟨1, "s5", "user", "a", 1, some 60⟩, ⟨2, "s5", "assistant", "b", 2, some 60⟩], 3⟩

/-- Failure scenario: in-memory state over the threshold. -/
def c5s : Session := ⟨"s5", none, 120⟩

/-- Failure scenario: threshold 100, keep 1. -/
def c5cfg : Config := ⟨100, 1, 8000⟩

/-- Failure scenario: the summarizer is down. -/
def c5gen : String → Except String (String × Usage) := fun _ => .error "summarizer down"

/-- Below-threshold scenario: session at 80 of 100 tokens. -/
def c6s : Session := ⟨"s6", none, 80⟩

/-- Below-threshold scenario: threshold 100. -/
def c6cfg : Config := ⟨100, 10, 8000⟩

/-- Below-threshold scenario: store with one persisted turn. -/
def c6db : DB := ⟨[⟨"s6", 0, 0, none, none⟩], [⟨1, "s6", "user", "x", 0, some 80⟩], 2⟩

/-- Below-threshold scenario: an oracle that must never be consulted. -/
def c6gen : String → Except String (String × Usage) := fun _ => .error "never called"

/-- Truncation scenario: maximum summary length 5. -/
def c7cfg : Config := ⟨10, 1, 5⟩

/-- Truncation scenario: the generated text trims to 8 characters. -/
def c7gen : String → Except String (String × Usage) := fun _ => .ok ("  abcdefgh  ", ⟨1, 1, 2⟩)

/-- Truncation scenario: two messages so the oracle is consulted. -/
def c7msgs : List ModelMessage := [⟨"user", .str "a"⟩, ⟨"assistant", .str "b"⟩]

/-- Truncation scenario: the expected compaction result, the trimmed
text hard-capped at 5 characters plus the marker. -/
def c7res : CompactionResult := ⟨"abcde" ++ truncationMarker, 1, 1, ⟨1, 1, 2⟩⟩

/-- Merge scenario: keep 1, ample summary budget. -/
def c8cfg : Config := ⟨10, 1, 100⟩

/-- Merge scenario: the first compaction yields "SUMMARY". -/
def c8gen : String → Except String (String × Usage) := fun _ => .ok ("SUMMARY", ⟨1, 1, 2⟩)

/-- Merge scenario: messages folded by the first compaction. -/
def c8ms1 : List ModelMessage := [⟨"user", .str "a"⟩, ⟨"assistant", .str "b"⟩]

/-- Merge scenario: messages that accrue before the second compaction. -/
def c8ms2 : List ModelMessage := [⟨"user", .str "c"⟩, ⟨"assistant", .str "d"⟩]

/-- Pruning scenario: a session with three persisted turns. -/
def c9db : DB :=
  ⟨[⟨"s9", 0, 3, none, none⟩],
   [⟨1, "s9", "user", "a", 1, some 50⟩, ⟨2, "s9", "assistant", "b", 2, some 50⟩,
    ⟨3, "s9", "user", "c", 3, some 50⟩], 4⟩

/-- Pruning scenario: in-memory state over the threshold. -/
def c9s : Session := ⟨"s9", none, 150⟩

/-- Pruning scenario: threshold 100, keep 1. -/
def c9cfg : Config := ⟨100, 1, 8000⟩

/-- Pruning scenario: summarizer oracle. -/
def c9gen : String → Except String (String × Usage) := fun _ => .ok ("S", ⟨1, 1, 2⟩)

/-- Small-history scenario: two turns totalling 12 tokens. -/
def c10db : DB :=
  ⟨[⟨"sx", 0, 2, none, none⟩],
   [⟨1, "sx", "user", "a", 1, some 6⟩, ⟨2, "sx", "assistant", "b", 2, some 6⟩], 3⟩

/-- Small-history scenario: in-memory state over the threshold. -/
def c10s : Session := ⟨"sx", none, 12⟩

/-- Small-history scenario: threshold 10 but keep-count 5 exceeds the
message count. -/
def c10cfg : Config := ⟨10, 5, 100⟩

/-- Small-history scenario: an oracle that must never be consulted. -/
def c10gen : String → Except String (String × Usage) := fun _ => .error "unused"

/-! ## Helper lemmas -/

/-- Auxiliary: `find?` on an id-keyed predicate commutes with a map that
preserves the id field. -/
theorem find?_map_of_preserved_id (l : List SessionRow) (f : SessionRow → SessionRow)
    (hid : ∀ r, (f r).id = r.id) (sid : String) :
    (l.map f).find? (fun r => r.id == sid) = (l.find? (fun r => r.id == sid)).map f := by
  induction l with
  | nil => rfl
  | cons a t ih =>
    simp only [List.map_cons, List.find?]
    rw [hid a]
    cases h : (a.id == sid)
    · exact ih
    · rfl

/-- Looking up the updated session after `setSummary`. -/
theorem getSession_setSummary (db : DB) (sid text : String) (now : Nat) :
    getSession (setSummary db sid text now) sid =
      (getSession db sid).map (fun r =>
        { r with summary_text := some text, last_compacted_at := some now, updated_at := now }) := by
  unfold getSession setSummary
  rw [find?_map_of_preserved_id _ _ (fun r => by by_cases h : r.id = sid <;> simp [h]) sid]
  cases hf : db.sessions.find? (fun r => r.id == sid) with
  | none => rfl
  | some r0 =>
    have hp : r0.id = sid := by simpa using List.find?_some hf
    simp [hp]

/-- Membership in the store after `deleteMessagesBeforeId`. -/
theorem mem_deleteMessagesBeforeId (db : DB) (sid : String) (x : Nat) (m : Message) :
    m ∈ (deleteMessagesBeforeId db sid x).2.messages ↔
      m ∈ db.messages ∧ ¬(m.session_id = sid ∧ m.id < x) := by
  simp [deleteMessagesBeforeId, List.mem_filter]
  tauto

/-- Auxiliary: removing the elements satisfying a predicate shrinks a
list by the number of elements satisfying it. -/
theorem length_sub_length_filter_not {α : Type} (p : α → Bool) (l : List α) :
    l.length - (l.filter (fun a => !(p a))).length = (l.filter p).length := by
  induction l with
  | nil => rfl
  | cons a t ih =>
    have hb := List.length_filter_le (fun a => !(p a)) t
    cases hpa : p a <;> simp [List.filter_cons, hpa] <;> omega

/-- The count returned by `deleteMessagesBeforeId` is the number of the
session's messages below the cutoff. -/
theorem count_deleteMessagesBeforeId (db : DB) (sid : String) (x : Nat) :
    (deleteMessagesBeforeId db sid x).1 =
      (db.messages.filter (fun m => m.session_id == sid && decide (m.id < x))).length := by
  exact length_sub_length_filter_not (fun m => m.session_id == sid && decide (m.id < x)) db.messages

/-- `deleteMessagesBeforeId` does not touch the sessions table. -/
theorem sessions_deleteMessagesBeforeId (db : DB) (sid : String) (x : Nat) :
    (deleteMessagesBeforeId db sid x).2.sessions = db.sessions := rfl

/-- `setSummary` does not touch the message ledger. -/
theorem messages_setSummary (db : DB) (sid text : String) (now : Nat) :
    (setSummary db sid text now).messages = db.messages := rfl

/-- The pruning step does not touch the sessions table. -/
theorem sessions_prunedStore (db1 : DB) (sid : String) (ms : List Message) (k : Nat) :
    (prunedStore db1 sid ms k).sessions = db1.sessions := by
  unfold prunedStore
  split
  · split <;> rfl
  · split
    · split <;> rfl
    · rfl

/-- Pruning step, middle branch: a positive split index inside the list
prunes before the id of the message at the split index. -/
theorem prunedStore_of_keep_lt (db1 : DB) (sid : String) (ms : List Message) (k : Nat)
    (hk : 0 < k) (fm : Message) (hfm : ms[k]? = some fm) :
    prunedStore db1 sid ms k = (deleteMessagesBeforeId db1 sid fm.id).2 := by
  have hlt : k < ms.length := (List.getElem?_eq_some.mp hfm).1
  unfold prunedStore
  rw [if_pos ⟨hk, hlt⟩, hfm]

/-- Pruning step: when the split index covers the whole (nonempty) list,
the cutoff is the last message's id plus one. -/
theorem prunedStore_of_keep_ge (db1 : DB) (sid : String) (ms : List Message) (k : Nat)
    (hge : ms.length ≤ k) (lm : Message) (hlast : ms.getLast? = some lm) :
    prunedStore db1 sid ms k = (deleteMessagesBeforeId db1 sid (lm.id + 1)).2 := by
  unfold prunedStore
  rw [if_neg (fun hc => absurd hc.2 (Nat.not_lt.mpr hge)), if_pos hge, hlast]

/-- Pruning step: empty history, nothing to prune. -/
theorem prunedStore_of_nil (db1 : DB) (sid : String) (k : Nat) :
    prunedStore db1 sid [] k = db1 := by
  simp [prunedStore]

/-- Pruning step: split index zero on a nonempty history, nothing is
deleted. -/
theorem prunedStore_of_keep_zero (db1 : DB) (sid : String) (ms : List Message)
    (hne : ms ≠ []) : prunedStore db1 sid ms 0 = db1 := by
  unfold prunedStore
  rw [if_neg (fun hc => absurd hc.1 (Nat.lt_irrefl 0)),
    if_neg (fun hc => absurd (List.length_eq_zero.mp (Nat.le_zero.mp hc)) hne)]

/-- `Session.checkAndCompact` when the threshold is not met. -/
theorem checkAndCompact_of_not_triggered (cfg : Config)
    (gen : String → Except String (String × Usage)) (s : Session) (db : DB) (now : Nat)
    (hsc : shouldCompact s.totalTokens cfg.compactAtTokens = false) :
    Session.checkAndCompact cfg gen s db now = (.ok (s, false), db) := by
  unfold Session.checkAndCompact
  rw [hsc]
  rfl

/-- `Session.checkAndCompact` when the summarizer call fails. -/
theorem checkAndCompact_of_genError (cfg : Config)
    (gen : String → Except String (String × Usage)) (s : Session) (db : DB) (now : Nat)
    (e : String)
    (hsc : shouldCompact s.totalTokens cfg.compactAtTokens = true)
    (hcc : compactConversation cfg gen
        { existingSummary := s.summary
          messages := (getAllMessages db s.sessionId).map
            (fun m => { role := m.role, content := .str m.content }) } = .error e) :
    Session.checkAndCompact cfg gen s db now = (.error e, db) := by
  unfold Session.checkAndCompact
  rw [hsc, hcc]
  rfl

/-- `Session.checkAndCompact` when compaction succeeds: the resulting
state and store, written through `prunedStore`. -/
theorem checkAndCompact_of_genOk (cfg : Config)
    (gen : String → Except String (String × Usage)) (s : Session) (db : DB) (now : Nat)
    (r : CompactionResult)
    (hsc : shouldCompact s.totalTokens cfg.compactAtTokens = true)
    (hcc : compactConversation cfg gen
        { existingSummary := s.summary
          messages := (getAllMessages db s.sessionId).map
            (fun m => { role := m.role, content := .str m.content }) } = .ok r) :
    Session.checkAndCompact cfg gen s db now =
      (.ok ({ sessionId := s.sessionId, summary := some r.newSummary
              totalTokens := (r.newSummary.length + 3) / 4 +
                getTotalTokenCount
                  (prunedStore (setSummary db s.sessionId r.newSummary now) s.sessionId
                    (getAllMessages db s.sessionId) r.keepMessagesFromIndex) s.sessionId }, true),
       prunedStore (setSummary db s.sessionId r.newSummary now) s.sessionId
         (getAllMessages db s.sessionId) r.keepMessagesFromIndex) := by
  unfold Session.checkAndCompact
  rw [hsc, hcc]
  rfl

/-- `Session.loadOrCreate` on an id whose session row exists. -/
theorem loadOrCreate_of_found (db : DB) (sid freshId : String) (now : Nat) (row : SessionRow)
    (hrow : getSession db sid = some row) :
    Session.loadOrCreate db (some sid) freshId now
      = ({ sessionId := sid, summary := row.summary_text
           totalTokens := getTotalTokenCount db sid }, db) := by
  simp only [Session.loadOrCreate]
  rw [hrow]

/-- Looking up a session is unaffected by the pruning step. -/
theorem getSession_prunedStore (db1 : DB) (sid1 : String) (ms : List Message) (k : Nat)
    (sid : String) :
    getSession (prunedStore db1 sid1 ms k) sid = getSession db1 sid := by
  unfold getSession
  rw [sessions_prunedStore]

/-- In a ledger with strictly increasing ids, every member's id is at
most the last element's id. -/
theorem mem_id_le_of_getLast? {m lm : Message} :
    ∀ (l : List Message), List.Pairwise (fun a b : Message => a.id < b.id) l →
      m ∈ l → l.getLast? = some lm → m.id ≤ lm.id
  | [], _, hm, _ => absurd hm (List.not_mem_nil m)
  | [a], _, hm, hl => by
    have h1 : m = a := by simpa using hm
    have h2 : a = lm := by simpa using hl
    rw [h1, h2]
  | a :: b :: t, hp, hm, hl => by
    rw [List.getLast?_cons_cons] at hl
    rcases List.mem_cons.mp hm with h | h
    · subst h
      have hne : (b :: t) ≠ [] := by simp
      rw [List.getLast?_eq_getLast _ hne] at hl
      have hlm : lm ∈ b :: t := (Option.some.inj hl) ▸ List.getLast_mem hne
      exact Nat.le_of_lt ((List.pairwise_cons.mp hp).1 lm hlm)
    · exact mem_id_le_of_getLast? (b :: t) hp.of_cons h hl

/-! ## Claims -/

/-- Claim C1: the spec says a command failing with a container-type
error is retried exactly once after recreating the environment, and a
second such failure propagates.  The code instead retries through
unbounded recursion: on a script where the first two attempts both fail
with container-type errors and the third succeeds, `exec` performs two
recreations and returns the third attempt's success, while the claimed
once-only discipline (`execClaimedOnce`) propagates the second
failure. -/
theorem exec_recreates_again_on_second_container_failure :
    exec [.err ⟨"no such container", some 404⟩, .err ⟨"no such container", some 404⟩,
        .ok ⟨"hi\n", "", 0⟩]
      = .ok (⟨"hi\n", "", 0⟩, 2)
    ∧ execClaimedOnce [.err ⟨"no such container", some 404⟩,
        .err ⟨"no such container", some 404⟩, .ok ⟨"hi\n", "", 0⟩]
      = .error ⟨"no such container", some 404⟩ :=
  ⟨by decide, by decide⟩

/-- Claim C4: with `N` messages and keep-count `K`, compaction is a
no-op for `N ≤ K` (split index 0, zero compacted, summary passed
through); for `N > K` it folds exactly the first `N − K` messages and
keeps the `K` most recent, with split index `N − K`. -/
theorem compactConversation_split_counts (cfg : Config)
    (gen : String → Except String (String × Usage)) (es : Option String)
    (ms : List ModelMessage) :
    (ms.length ≤ cfg.keepRecentMessages →
      compactConversation cfg gen ⟨es, ms⟩ =
        .ok { newSummary := es.getD "", keepMessagesFromIndex := 0
              compactedMessageCount := 0, usage := ⟨0, 0, 0⟩ })
    ∧ (∀ r : CompactionResult, cfg.keepRecentMessages < ms.length →
        compactConversation cfg gen ⟨es, ms⟩ = .ok r →
        r.keepMessagesFromIndex = ms.length - cfg.keepRecentMessages
        ∧ r.compactedMessageCount = ms.length - cfg.keepRecentMessages
        ∧ (ms.take r.keepMessagesFromIndex).length = ms.length - cfg.keepRecentMessages
        ∧ (ms.drop r.keepMessagesFromIndex).length = cfg.keepRecentMessages) := by
  constructor
  · intro hle
    unfold compactConversation
    rw [if_pos hle]
  · intro r hlt hok
    unfold compactConversation at hok
    rw [if_neg (Nat.not_le.mpr hlt)] at hok
    cases hg : gen (buildCompactionPrompt es (ms.take (ms.length - cfg.keepRecentMessages))) with
    | error e =>
      rw [hg] at hok
      exact absurd hok (by simp)
    | ok tu =>
      rw [hg] at hok
      have hr := (Except.ok.inj hok).symm
      subst hr
      refine ⟨rfl, ?_, ?_, ?_⟩
      · show (ms.take (ms.length - cfg.keepRecentMessages)).length
            = ms.length - cfg.keepRecentMessages
        rw [List.length_take]
        exact Nat.min_eq_left (Nat.sub_le _ _)
      · show (ms.take (ms.length - cfg.keepRecentMessages)).length
            = ms.length - cfg.keepRecentMessages
        rw [List.length_take]
        exact Nat.min_eq_left (Nat.sub_le _ _)
      · show (ms.drop (ms.length - cfg.keepRecentMessages)).length = cfg.keepRecentMessages
        rw [List.length_drop]
        exact Nat.sub_sub_self (Nat.le_of_lt hlt)

/-- Witness for claim C4: keep-count 2 over `[m1, m2, m3, m4, m5]`
keeps `[m4, m5]` verbatim, folds `[m1, m2, m3]`, with
`compactedCount = 3` and split index 3. -/
theorem compactConversation_split_counts_witness :
    c4cfg.keepRecentMessages < c4msgs.length
    ∧ compactConversation c4cfg c4gen ⟨none, c4msgs⟩ = .ok ⟨"ok", 3, 3, ⟨0, 0, 0⟩⟩
    ∧ ((⟨"ok", 3, 3, ⟨0, 0, 0⟩⟩ : CompactionResult).keepMessagesFromIndex
          = c4msgs.length - c4cfg.keepRecentMessages
      ∧ (⟨"ok", 3, 3, ⟨0, 0, 0⟩⟩ : CompactionResult).compactedMessageCount
          = c4msgs.length - c4cfg.keepRecentMessages
      ∧ (c4msgs.take (⟨"ok", 3, 3, ⟨0, 0, 0⟩⟩ : CompactionResult).keepMessagesFromIndex).length
          = c4msgs.length - c4cfg.keepRecentMessages
      ∧ (c4msgs.drop (⟨"ok", 3, 3, ⟨0, 0, 0⟩⟩ : CompactionResult).keepMessagesFromIndex).length
          = c4cfg.keepRecentMessages)
    ∧ c4msgs.take 3 = [⟨"user", .str "m1"⟩, ⟨"assistant", .str "m2"⟩, ⟨"user", .str "m3"⟩]
    ∧ c4msgs.drop 3 = [⟨"assistant", .str "m4"⟩, ⟨"user", .str "m5"⟩] :=
  ⟨by decide, by decide,
    (compactConversation_split_counts c4cfg c4gen none c4msgs).2
      ⟨"ok", 3, 3, ⟨0, 0, 0⟩⟩ (by decide) (by decide),
    by decide, by decide⟩

/-- Claim C5: when the summarizer call fails during a compaction
attempt, `checkAndCompact` propagates the error and the store — summary,
`last_compacted_at`, and the message ledger — is exactly as before; the
in-memory state is returned to the caller unchanged as well. -/
theorem summarization_failure_aborts_cleanly (cfg : Config)
    (gen : String → Except String (String × Usage)) (s : Session) (db : DB) (now : Nat)
    (e : String)
    (hsc : shouldCompact s.totalTokens cfg.compactAtTokens = true)
    (hcc : compactConversation cfg gen
        { existingSummary := s.summary
          messages := (getAllMessages db s.sessionId).map
            (fun m => { role := m.role, content := .str m.content }) } = .error e) :
    Session.checkAndCompact cfg gen s db now = (.error e, db) :=
  checkAndCompact_of_genError cfg gen s db now e hsc hcc

/-- Witness for claim C5: a session over threshold whose summarizer is
down; `checkAndCompact` returns the error and the untouched store. -/
theorem summarization_failure_aborts_cleanly_witness :
    shouldCompact c5s.totalTokens c5cfg.compactAtTokens = true
    ∧ compactConversation c5cfg c5gen
        { existingSummary := c5s.summary
          messages := (getAllMessages c5db c5s.sessionId).map
            (fun m => { role := m.role, content := .str m.content }) } = .error "summarizer down"
    ∧ Session.checkAndCompact c5cfg c5gen c5s c5db 9 = (.error "summarizer down", c5db) :=
  ⟨by decide, by decide,
    summarization_failure_aborts_cleanly c5cfg c5gen c5s c5db 9 "summarizer down"
      (by decide) (by decide)⟩

/-- Claim C6: below the trigger threshold, `checkAndCompact` returns
`false` and performs no mutation at all: the returned store is the input
store and the in-memory state is unchanged. -/
theorem checkAndCompact_below_threshold_noop (cfg : Config)
    (gen : String → Except String (String × Usage)) (s : Session) (db : DB) (now : Nat)
    (h : s.totalTokens < cfg.compactAtTokens) :
    Session.checkAndCompact cfg gen s db now = (.ok (s, false), db) :=
  checkAndCompact_of_not_triggered cfg gen s db now (by simp [shouldCompact]; omega)

/-- Witness for claim C6: `totalTokens = 80` against threshold 100
returns `false` with the store untouched. -/
theorem checkAndCompact_below_threshold_noop_witness :
    c6s.totalTokens < c6cfg.compactAtTokens
    ∧ Session.checkAndCompact c6cfg c6gen c6s c6db 5 = (.ok (c6s, false), c6db) :=
  ⟨by decide, checkAndCompact_below_threshold_noop c6cfg c6gen c6s c6db 5 (by decide)⟩

/-- Claim C7: when the generated summary text, after trimming, exceeds
the configured maximum, the returned summary is exactly the first
`maxSummaryLength` characters followed by the fixed truncation marker;
otherwise it is the trimmed text unchanged. -/
theorem summary_truncation_deterministic (cfg : Config)
    (gen : String → Except String (String × Usage)) (es : Option String)
    (ms : List ModelMessage) (text : String) (u : Usage)
    (hlt : cfg.keepRecentMessages < ms.length)
    (hg : gen (buildCompactionPrompt es (ms.take (ms.length - cfg.keepRecentMessages)))
        = .ok (text, u)) :
    ∀ r : CompactionResult, compactConversation cfg gen ⟨es, ms⟩ = .ok r →
      (cfg.maxSummaryLength < (jsTrim text).length →
        r.newSummary = (jsTrim text).take cfg.maxSummaryLength ++ truncationMarker)
      ∧ ((jsTrim text).length ≤ cfg.maxSummaryLength → r.newSummary = jsTrim text) := by
  intro r hok
  unfold compactConversation at hok
  rw [if_neg (Nat.not_le.mpr hlt), hg] at hok
  have hr := (Except.ok.inj hok).symm
  subst hr
  constructor
  · intro hbig
    show (if cfg.maxSummaryLength < (jsTrim text).length then
        (jsTrim text).take cfg.maxSummaryLength ++ truncationMarker else jsTrim text)
      = (jsTrim text).take cfg.maxSummaryLength ++ truncationMarker
    rw [if_pos hbig]
  · intro hsmall
    show (if cfg.maxSummaryLength < (jsTrim text).length then
        (jsTrim text).take cfg.maxSummaryLength ++ truncationMarker else jsTrim text)
      = jsTrim text
    rw [if_neg (Nat.not_lt.mpr hsmall)]

/-- Witness for claim C7: maximum 5 and a text trimming to
`"abcdefgh"` yield `"abcde"` plus the marker. -/
theorem summary_truncation_deterministic_witness :
    c7cfg.keepRecentMessages < c7msgs.length
    ∧ compactConversation c7cfg c7gen ⟨none, c7msgs⟩ = .ok c7res
    ∧ ((c7cfg.maxSummaryLength < (jsTrim "  abcdefgh  ").length →
          c7res.newSummary = (jsTrim "  abcdefgh  ").take c7cfg.maxSummaryLength
            ++ truncationMarker)
      ∧ ((jsTrim "  abcdefgh  ").length ≤ c7cfg.maxSummaryLength →
          c7res.newSummary = jsTrim "  abcdefgh  ")) :=
  ⟨by decide, by decide,
    summary_truncation_deterministic c7cfg c7gen none c7msgs "  abcdefgh  " ⟨1, 1, 2⟩
      (by decide) (by decide) c7res (by decide)⟩

set_option maxRecDepth 4000 in
/-- Claim C8: a second compaction run whose input summary is the
(nonempty) output of a first run sends a merge request containing that
summary verbatim inside the existing-summary block. -/
theorem second_compaction_prompt_contains_first_summary (cfg : Config)
    (gen : String → Except String (String × Usage)) (es : Option String)
    (ms1 ms2 : List ModelMessage) (r : CompactionResult)
    (h1 : compactConversation cfg gen ⟨es, ms1⟩ = .ok r)
    (h2 : 0 < (jsTrim r.newSummary).length) :
    ∃ pre post, buildCompactionPrompt (some r.newSummary) ms2
      = pre ++ ("## Existing Summary\n\n" ++ r.newSummary ++ "\n\n") ++ post := by
  refine ⟨"You are compacting a conversation history to save context space. "
      ++ "There is an existing summary from previous compactions, and new messages that need to be merged into it.\n\n",
    "## Messages to Compact\n\n" ++ formatMessagesForCompaction ms2 ++ taskBlock true, ?_⟩
  have hex : hasExistingSummary (some r.newSummary) = true := by
    simp [hasExistingSummary]
    omega
  simp only [buildCompactionPrompt, hex, if_true, Option.getD_some]
  apply String.ext
  simp [String.data_append, List.append_assoc]

/-- Witness for claim C8: the first run yields `"SUMMARY"`; the second
run's prompt carries it verbatim in the existing-summary block. -/
theorem second_compaction_prompt_contains_first_summary_witness :
    compactConversation c8cfg c8gen ⟨none, c8ms1⟩ = .ok ⟨"SUMMARY", 1, 1, ⟨1, 1, 2⟩⟩
    ∧ 0 < (jsTrim "SUMMARY").length
    ∧ ∃ pre post, buildCompactionPrompt (some "SUMMARY") c8ms2
        = pre ++ ("## Existing Summary\n\n" ++ "SUMMARY" ++ "\n\n") ++ post :=
  ⟨by decide, by decide,
    second_compaction_prompt_contains_first_summary c8cfg c8gen none c8ms1 c8ms2
      ⟨"SUMMARY", 1, 1, ⟨1, 1, 2⟩⟩ (by decide) (by decide)⟩

/-- Claim C2 counterexample: create a session, add two 6-token turns,
compact (summary "SUMMARY", in-memory total 8 = estimate 2 + remaining
6), then reload by id.  The reloaded summary and store match, but the
reloaded total is 6, not 8: the round-trip triple differs. -/
theorem roundtrip_totalTokens_mismatch :
    c2run4.1 = .ok (⟨"sess-1", some "SUMMARY", 8⟩, true)
    ∧ c2reload.2 = c2run4.2
    ∧ c2reload.1 = ⟨"sess-1", some "SUMMARY", 6⟩
    ∧ c2reload.1.totalTokens ≠ 8 :=
  ⟨by decide, by decide, by decide, by decide⟩

/-- Claim C2 (amended): after a successful compaction, reloading by id
restores the same summary and the same store (hence the same remaining
messages), but the reloaded `totalTokens` is the persisted sum alone:
the pre-reload total exceeds it by exactly the summary estimate
`ceil(length / 4)`, so the triple matches exactly iff that estimate is
zero. -/
theorem roundtrip_after_compaction_amended (cfg : Config)
    (gen : String → Except String (String × Usage)) (s s2 : Session) (db db2 : DB)
    (row : SessionRow) (now now2 : Nat) (freshId : String)
    (hrow : getSession db s.sessionId = some row)
    (hrun : Session.checkAndCompact cfg gen s db now = (.ok (s2, true), db2)) :
    (Session.loadOrCreate db2 (some s.sessionId) freshId now2).2 = db2
    ∧ (Session.loadOrCreate db2 (some s.sessionId) freshId now2).1.sessionId = s.sessionId
    ∧ (Session.loadOrCreate db2 (some s.sessionId) freshId now2).1.summary = s2.summary
    ∧ s2.totalTokens = ((s2.summary.getD "").length + 3) / 4
        + (Session.loadOrCreate db2 (some s.sessionId) freshId now2).1.totalTokens := by
  cases hsc : shouldCompact s.totalTokens cfg.compactAtTokens with
  | false =>
    rw [checkAndCompact_of_not_triggered cfg gen s db now hsc] at hrun
    simp at hrun
  | true =>
    cases hcc : compactConversation cfg gen
        { existingSummary := s.summary
          messages := (getAllMessages db s.sessionId).map
            (fun m => { role := m.role, content := .str m.content }) } with
    | error e =>
      rw [checkAndCompact_of_genError cfg gen s db now e hsc hcc] at hrun
      simp at hrun
    | ok r =>
      rw [checkAndCompact_of_genOk cfg gen s db now r hsc hcc] at hrun
      have hfst := congrArg Prod.fst hrun
      have hsnd := congrArg Prod.snd hrun
      dsimp only at hfst hsnd
      have hs2 : s2 = ⟨s.sessionId, some r.newSummary,
          (r.newSummary.length + 3) / 4 +
            getTotalTokenCount
              (prunedStore (setSummary db s.sessionId r.newSummary now) s.sessionId
                (getAllMessages db s.sessionId) r.keepMessagesFromIndex) s.sessionId⟩ :=
        (congrArg Prod.fst (Except.ok.inj hfst)).symm
      subst hs2
      subst hsnd
      have hget : getSession
          (prunedStore (setSummary db s.sessionId r.newSummary now) s.sessionId
            (getAllMessages db s.sessionId) r.keepMessagesFromIndex) s.sessionId
          = some { row with
              summary_text := some r.newSummary
              last_compacted_at := some now
              updated_at := now } := by
        rw [getSession_prunedStore, getSession_setSummary, hrow]
        rfl
      rw [loadOrCreate_of_found _ _ freshId now2 _ hget]
      exact ⟨rfl, rfl, rfl, rfl⟩

/-- Witness for claim C2 (amended): the concrete round-trip scenario,
pre-reload total 8, reloaded total 6, matching summary and store. -/
theorem roundtrip_after_compaction_amended_witness :
    getSession c2run3.2 "sess-1" = some ⟨"sess-1", 0, 2, none, none⟩
    ∧ Session.checkAndCompact c2cfg c2gen c2run3.1 c2run3.2 3
        = (.ok (⟨"sess-1", some "SUMMARY", 8⟩, true), c2run4.2)
    ∧ ((Session.loadOrCreate c2run4.2 (some c2run3.1.sessionId) "unused" 4).2 = c2run4.2
      ∧ (Session.loadOrCreate c2run4.2 (some c2run3.1.sessionId) "unused" 4).1.sessionId
          = c2run3.1.sessionId
      ∧ (Session.loadOrCreate c2run4.2 (some c2run3.1.sessionId) "unused" 4).1.summary
          = (⟨"sess-1", some "SUMMARY", 8⟩ : Session).summary
      ∧ (⟨"sess-1", some "SUMMARY", 8⟩ : Session).totalTokens
          = (((⟨"sess-1", some "SUMMARY", 8⟩ : Session).summary.getD "").length + 3) / 4
            + (Session.loadOrCreate c2run4.2 (some c2run3.1.sessionId) "unused" 4).1.totalTokens) :=
  ⟨by decide, by decide,
    roundtrip_after_compaction_amended c2cfg c2gen c2run3.1 ⟨"sess-1", some "SUMMARY", 8⟩
      c2run3.2 c2run4.2 ⟨"sess-1", 0, 2, none, none⟩ 3 4 "unused" (by decide) (by decide)⟩

/-- Claim C3 counterexample: a reachable state where the invariant
fails: one persisted 10-token turn, then `updateTokenCount 5 7` brings
the in-memory total to 22 while the persisted sum is 10 and there is no
summary, so 22 differs from the sum plus the summary estimate. -/
theorem updateTokenCount_breaks_token_invariant :
    c3run3.totalTokens = 22
    ∧ getTotalTokenCount c3run2.2 c3run3.sessionId = 10
    ∧ c3run3.summary = none
    ∧ c3run3.totalTokens
        ≠ ((c3run3.summary.getD "").length + 3) / 4
          + getTotalTokenCount c3run2.2 c3run3.sessionId :=
  ⟨by decide, by decide, by decide, by decide⟩

/-- Claim C3 (amended): the token accounting actually maintained by the
code: hydration equates the in-memory total with the persisted sum
alone (no summary cost); appending a turn adds the caller-supplied
count to both the in-memory total and the persisted sum; and
immediately after a successful compaction the total equals the summary
estimate plus the persisted sum.  `updateTokenCount` adds generation
usage that is never persisted, which is what breaks the claimed
invariant between compactions. -/
theorem totalTokens_accounting_amended :
    (∀ (db : DB) (sid freshId : String) (now : Nat) (row : SessionRow),
      getSession db sid = some row →
      (Session.loadOrCreate db (some sid) freshId now).1.totalTokens
        = getTotalTokenCount db sid)
    ∧ (∀ (s : Session) (db : DB) (role content : String) (tc : Option Nat) (now : Nat),
        (Session.addMessageWithRole s db role content tc now).1.totalTokens
            = s.totalTokens + tc.getD 0
        ∧ getTotalTokenCount (Session.addMessageWithRole s db role content tc now).2 s.sessionId
            = getTotalTokenCount db s.sessionId + tc.getD 0)
    ∧ (∀ (cfg : Config) (gen : String → Except String (String × Usage))
        (s s2 : Session) (db db2 : DB) (now : Nat),
        Session.checkAndCompact cfg gen s db now = (.ok (s2, true), db2) →
        s2.totalTokens = ((s2.summary.getD "").length + 3) / 4
            + getTotalTokenCount db2 s2.sessionId) := by
  refine ⟨?_, ?_, ?_⟩
  · intro db sid freshId now row hrow
    rw [loadOrCreate_of_found _ _ freshId now _ hrow]
  · intro s db role content tc now
    constructor
    · rfl
    · unfold Session.addMessageWithRole appendMessage getTotalTokenCount
      dsimp only
      rw [List.filter_append, List.map_append, List.sum_append]
      simp
  · intro cfg gen s s2 db db2 now hrun
    cases hsc : shouldCompact s.totalTokens cfg.compactAtTokens with
    | false =>
      rw [checkAndCompact_of_not_triggered cfg gen s db now hsc] at hrun
      simp at hrun
    | true =>
      cases hcc : compactConversation cfg gen
          { existingSummary := s.summary
            messages := (getAllMessages db s.sessionId).map
              (fun m => { role := m.role, content := .str m.content }) } with
      | error e =>
        rw [checkAndCompact_of_genError cfg gen s db now e hsc hcc] at hrun
        simp at hrun
      | ok r =>
        rw [checkAndCompact_of_genOk cfg gen s db now r hsc hcc] at hrun
        have hfst := congrArg Prod.fst hrun
        have hsnd := congrArg Prod.snd hrun
        dsimp only at hfst hsnd
        have hs2 : s2 = ⟨s.sessionId, some r.newSummary,
            (r.newSummary.length + 3) / 4 +
              getTotalTokenCount
                (prunedStore (setSummary db s.sessionId r.newSummary now) s.sessionId
                  (getAllMessages db s.sessionId) r.keepMessagesFromIndex) s.sessionId⟩ :=
          (congrArg Prod.fst (Except.ok.inj hfst)).symm
        subst hs2
        subst hsnd
        rfl

/-- Witness for claim C3 (amended): hydration after one 10-token turn
gives total 10 = persisted sum; appending a 12-token turn adds 12 to
both sides; compaction of the two turns yields summary "NOTES"
(estimate 2) plus the remaining 12 tokens, total 14. -/
theorem totalTokens_accounting_amended_witness :
    (getSession c3run2.2 "sess-3" = some ⟨"sess-3", 0, 1, none, none⟩
      ∧ (Session.loadOrCreate c3run2.2 (some "sess-3") "u" 5).1.totalTokens
          = getTotalTokenCount c3run2.2 "sess-3")
    ∧ ((Session.addMessageWithRole c3run2.1 c3run2.2 "assistant" "yo" (some 12) 2).1.totalTokens
          = c3run2.1.totalTokens + (some 12).getD 0
      ∧ getTotalTokenCount
          (Session.addMessageWithRole c3run2.1 c3run2.2 "assistant" "yo" (some 12) 2).2
          c3run2.1.sessionId
          = getTotalTokenCount c3run2.2 c3run2.1.sessionId + (some 12).getD 0)
    ∧ (Session.checkAndCompact c3cfg c3gen c3run4.1 c3run4.2 3
          = (.ok (⟨"sess-3", some "NOTES", 14⟩, true), c3run5.2)
      ∧ (⟨"sess-3", some "NOTES", 14⟩ : Session).totalTokens
          = (((⟨"sess-3", some "NOTES", 14⟩ : Session).summary.getD "").length + 3) / 4
            + getTotalTokenCount c3run5.2 (⟨"sess-3", some "NOTES", 14⟩ : Session).sessionId) :=
  ⟨⟨by decide, totalTokens_accounting_amended.1 c3run2.2 "sess-3" "u" 5
      ⟨"sess-3", 0, 1, none, none⟩ (by decide)⟩,
    totalTokens_accounting_amended.2.1 c3run2.1 c3run2.2 "assistant" "yo" (some 12) 2,
    ⟨by decide, totalTokens_accounting_amended.2.2 c3cfg c3gen c3run4.1
      ⟨"sess-3", some "NOTES", 14⟩ c3run4.2 c3run5.2 3 (by decide)⟩⟩

/-- Claim C9: pruning is anchored to message identity.
`deleteMessagesBeforeId` keeps exactly the messages that are not the
session's with id strictly below the cutoff, and returns the number
deleted.  After a successful compaction, `checkAndCompact` prunes
strictly before the id of the message at the split index; when the
split index reaches or exceeds the message count, all of the session's
messages are pruned (via the last id plus one), assuming the ledger's
ids are strictly increasing. -/
theorem pruning_anchored_to_message_identity :
    (∀ (db : DB) (sid : String) (x : Nat) (m : Message),
        m ∈ (deleteMessagesBeforeId db sid x).2.messages ↔
          m ∈ db.messages ∧ ¬(m.session_id = sid ∧ m.id < x))
    ∧ (∀ (db : DB) (sid : String) (x : Nat),
        (deleteMessagesBeforeId db sid x).1 =
          (db.messages.filter (fun m => m.session_id == sid && decide (m.id < x))).length)
    ∧ (∀ (cfg : Config) (gen : String → Except String (String × Usage))
        (s : Session) (db : DB) (now : Nat) (r : CompactionResult),
        List.Pairwise (fun a b : Message => a.id < b.id) db.messages →
        shouldCompact s.totalTokens cfg.compactAtTokens = true →
        compactConversation cfg gen
          { existingSummary := s.summary
            messages := (getAllMessages db s.sessionId).map
              (fun m => { role := m.role, content := .str m.content }) } = .ok r →
        ((0 < r.keepMessagesFromIndex →
          ∀ fm : Message,
            (getAllMessages db s.sessionId)[r.keepMessagesFromIndex]? = some fm →
          ∀ m : Message,
            m ∈ (Session.checkAndCompact cfg gen s db now).2.messages ↔
              m ∈ db.messages ∧ ¬(m.session_id = s.sessionId ∧ m.id < fm.id))
        ∧ ((getAllMessages db s.sessionId).length ≤ r.keepMessagesFromIndex →
          ∀ m : Message,
            m ∈ (Session.checkAndCompact cfg gen s db now).2.messages ↔
              m ∈ db.messages ∧ m.session_id ≠ s.sessionId))) := by
  refine ⟨mem_deleteMessagesBeforeId, count_deleteMessagesBeforeId, ?_⟩
  intro cfg gen s db now r hp hsc hcc
  constructor
  · intro hkpos fm hfm m
    rw [checkAndCompact_of_genOk cfg gen s db now r hsc hcc]
    dsimp only
    rw [prunedStore_of_keep_lt _ _ _ _ hkpos fm hfm, mem_deleteMessagesBeforeId,
      messages_setSummary]
  · intro hge m
    rw [checkAndCompact_of_genOk cfg gen s db now r hsc hcc]
    dsimp only
    cases hlast : (getAllMessages db s.sessionId).getLast? with
    | none =>
      have hnil : getAllMessages db s.sessionId = [] := List.getLast?_eq_none.mp hlast
      rw [hnil, prunedStore_of_nil, messages_setSummary]
      constructor
      · intro hm
        refine ⟨hm, fun heq => ?_⟩
        have hq := List.filter_eq_nil.mp hnil m hm
        simp [heq] at hq
      · exact fun h => h.1
    | some lm =>
      rw [prunedStore_of_keep_ge _ _ _ _ hge lm hlast, mem_deleteMessagesBeforeId,
        messages_setSummary]
      constructor
      · rintro ⟨hm, hnot⟩
        refine ⟨hm, fun heq => ?_⟩
        have hmem : m ∈ getAllMessages db s.sessionId := by
          unfold getAllMessages
          rw [List.mem_filter]
          exact ⟨hm, by simp [heq]⟩
        have hle : m.id ≤ lm.id :=
          mem_id_le_of_getLast? _ (List.Pairwise.sublist (List.filter_sublist _) hp) hmem hlast
        exact hnot ⟨heq, Nat.lt_succ_of_le hle⟩
      · rintro ⟨hm, hne⟩
        exact ⟨hm, fun hand => hne hand.1⟩

/-- Witness for claim C9: three persisted turns, split index 2: the
message at index 2 has id 3, and the turn with id 1 is pruned. -/
theorem pruning_anchored_to_message_identity_witness :
    ((⟨2, "s9", "assistant", "b", 2, some 50⟩ : Message)
        ∈ (deleteMessagesBeforeId c9db "s9" 2).2.messages ↔
      (⟨2, "s9", "assistant", "b", 2, some 50⟩ : Message) ∈ c9db.messages
        ∧ ¬((⟨2, "s9", "assistant", "b", 2, some 50⟩ : Message).session_id = "s9"
            ∧ (⟨2, "s9", "assistant", "b", 2, some 50⟩ : Message).id < 2))
    ∧ List.Pairwise (fun a b : Message => a.id < b.id) c9db.messages
    ∧ shouldCompact c9s.totalTokens c9cfg.compactAtTokens = true
    ∧ compactConversation c9cfg c9gen
        { existingSummary := c9s.summary
          messages := (getAllMessages c9db c9s.sessionId).map
            (fun m => { role := m.role, content := .str m.content }) }
        = .ok ⟨"S", 2, 2, ⟨1, 1, 2⟩⟩
    ∧ (getAllMessages c9db c9s.sessionId)[2]? = some ⟨3, "s9", "user", "c", 3, some 50⟩
    ∧ ((⟨1, "s9", "user", "a", 1, some 50⟩ : Message)
          ∈ (Session.checkAndCompact c9cfg c9gen c9s c9db 9).2.messages ↔
        (⟨1, "s9", "user", "a", 1, some 50⟩ : Message) ∈ c9db.messages
          ∧ ¬((⟨1, "s9", "user", "a", 1, some 50⟩ : Message).session_id = c9s.sessionId
              ∧ (⟨1, "s9", "user", "a", 1, some 50⟩ : Message).id
                  < (⟨3, "s9", "user", "c", 3, some 50⟩ : Message).id)) :=
  ⟨pruning_anchored_to_message_identity.1 c9db "s9" 2 ⟨2, "s9", "assistant", "b", 2, some 50⟩,
    by decide, by decide, by decide, by decide,
    (pruning_anchored_to_message_identity.2.2 c9cfg c9gen c9s c9db 9 ⟨"S", 2, 2, ⟨1, 1, 2⟩⟩
        (by decide) (by decide) (by decide)).1
      (by decide) ⟨3, "s9", "user", "c", 3, some 50⟩ (by decide)
      ⟨1, "s9", "user", "a", 1, some 50⟩⟩

/-- Claim C10: when the threshold is met but the history has at most
keep-count messages, `checkAndCompact` still returns `true` and mutates
the session record: `summary_text` is written back as the prior summary
(or the empty string), `last_compacted_at` and `updated_at` are
stamped, and no messages are deleted. -/
theorem threshold_met_small_history_still_compacts (cfg : Config)
    (gen : String → Except String (String × Usage)) (s : Session) (db : DB) (now : Nat)
    (row : SessionRow)
    (hrow : getSession db s.sessionId = some row)
    (hsc : shouldCompact s.totalTokens cfg.compactAtTokens = true)
    (hle : (getAllMessages db s.sessionId).length ≤ cfg.keepRecentMessages) :
    Session.checkAndCompact cfg gen s db now =
      (.ok ({ sessionId := s.sessionId, summary := some (s.summary.getD "")
              totalTokens := ((s.summary.getD "").length + 3) / 4
                + getTotalTokenCount db s.sessionId }, true),
       setSummary db s.sessionId (s.summary.getD "") now)
    ∧ (setSummary db s.sessionId (s.summary.getD "") now).messages = db.messages
    ∧ getSession (setSummary db s.sessionId (s.summary.getD "") now) s.sessionId
        = some { row with
            summary_text := some (s.summary.getD "")
            last_compacted_at := some now
            updated_at := now } := by
  have hcc : compactConversation cfg gen
      { existingSummary := s.summary
        messages := (getAllMessages db s.sessionId).map
          (fun m => { role := m.role, content := .str m.content }) }
      = .ok { newSummary := s.summary.getD "", keepMessagesFromIndex := 0
              compactedMessageCount := 0, usage := ⟨0, 0, 0⟩ } := by
    unfold compactConversation
    rw [if_pos (by rw [List.length_map]; exact hle)]
  have hps : prunedStore (setSummary db s.sessionId (s.summary.getD "") now) s.sessionId
      (getAllMessages db s.sessionId) 0
      = setSummary db s.sessionId (s.summary.getD "") now := by
    cases hms : getAllMessages db s.sessionId with
    | nil => exact prunedStore_of_nil _ _ _
    | cons a t => exact prunedStore_of_keep_zero _ _ _ (by simp)
  refine ⟨?_, rfl, ?_⟩
  · rw [checkAndCompact_of_genOk cfg gen s db now _ hsc hcc]
    dsimp only
    rw [hps]
    rfl
  · rw [getSession_setSummary, hrow]
    rfl

/-- Witness for claim C10: two turns, keep-count 5, threshold met: the
no-op compaction still stamps the session row and returns `true`. -/
theorem threshold_met_small_history_still_compacts_witness :
    getSession c10db c10s.sessionId = some ⟨"sx", 0, 2, none, none⟩
    ∧ shouldCompact c10s.totalTokens c10cfg.compactAtTokens = true
    ∧ (getAllMessages c10db c10s.sessionId).length ≤ c10cfg.keepRecentMessages
    ∧ (Session.checkAndCompact c10cfg c10gen c10s c10db 7 =
        (.ok ({ sessionId := c10s.sessionId, summary := some (c10s.summary.getD "")
                totalTokens := ((c10s.summary.getD "").length + 3) / 4
                  + getTotalTokenCount c10db c10s.sessionId }, true),
         setSummary c10db c10s.sessionId (c10s.summary.getD "") 7)
      ∧ (setSummary c10db c10s.sessionId (c10s.summary.getD "") 7).messages = c10db.messages
      ∧ getSession (setSummary c10db c10s.sessionId (c10s.summary.getD "") 7) c10s.sessionId
          = some { (⟨"sx", 0, 2, none, none⟩ : SessionRow) with
              summary_text := some (c10s.summary.getD "")
              last_compacted_at := some 7
              updated_at := 7 }) :=
  ⟨by decide, by decide, by decide,
    threshold_met_small_history_still_compacts c10cfg c10gen c10s c10db 7
      ⟨"sx", 0, 2, none, none⟩ (by decide) (by decide) (by decide)⟩

end Runable
